import Mathlib

/-!
Shallow embedding of the `stylo` FFI module (`src/style/ffi/mod.rs`).

The module under verification is a C++-facing facade over CSS machinery:
color parsing and packing, calc-literal extraction, selector matching over
an opaque element-handle tree, and a few thin pass-throughs.  Pure logic
that lives in `src/style/ffi/mod.rs` is translated directly; the external
collaborators the spec declares out of scope (the CSS tokenizer, the
selector-matching library, the URL parser, the color-space converter and
the host document callbacks) are modelled from the spec, each marked
`Modelled from the spec:` in its doc comment.

All `f32` quantities relevant to the claims (color components in [0,1],
alpha, small integer calc literals) are exactly representable in `f32` and
the arithmetic performed on them (multiplication by 255, rounding) is
exact, so components are embedded as rationals.
-/

namespace StyloFFI

/-- Clamp a rational to the unit interval, as the spec's `clamp01`. -/
def clamp01 (x : ℚ) : ℚ := max 0 (min 1 x)

/-- Round half away from zero, the rounding mode of Rust `f32::round`. -/
def roundHalfAway (x : ℚ) : ℤ := if 0 ≤ x then ⌊x + 1/2⌋ else ⌈x - 1/2⌉

/-- Saturating cast from an integer to an 8-bit unsigned value, the behavior
of Rust `as u8` on a float-derived value (float-to-int casts saturate). -/
def castU8Sat (z : ℤ) : ℕ := if z < 0 then 0 else if 255 < z then 255 else z.toNat

/-- Assemble four bytes into a 32-bit value in increasing byte-significance
order, as Rust `u32::from_le_bytes [b0, b1, b2, b3]`. -/
def fromLeBytes (b0 b1 b2 b3 : ℕ) : ℕ :=
  b0 + 256 * b1 + 65536 * b2 + 16777216 * b3

/-- The 14 color-space tags of the FFI `ColorSpace` enum. -/
inductive ColorSpace
  | Srgb | Hsl | Hwb | Lab | Lch | Oklab | Oklch | SrgbLinear
  | DisplayP3 | A98Rgb | ProphotoRgb | Rec2020 | XyzD50 | XyzD65
  deriving DecidableEq, Repr

/-- An absolute color: a color-space tag, three components and an alpha,
mirroring `AbsoluteColor` as consumed by the FFI module. -/
structure AbsoluteColor where
  colorSpace : ColorSpace
  c0 : ℚ
  c1 : ℚ
  c2 : ℚ
  alpha : ℚ
  deriving DecidableEq, Repr

/-- The shapes of a parsed specified color the FFI module distinguishes:
an absolute color, `currentColor`, or any other context-dependent form
(color-mix, relative color syntax, ...), mirroring the match arms on
`values::specified::color::Color` in `parse_color` and
`parse_color_to_nscolor`. -/
inductive SpecifiedColor
  | Absolute (c : AbsoluteColor)
  | CurrentColor
  | OtherContextDependent
  deriving DecidableEq, Repr

/-- Modelled from the spec: conversion of an absolute color to the sRGB
color space is delegated to the external color-conversion routine
(`to_color_space`); it is the identity on colors already tagged sRGB, and
the claims exercise no other space, so other spaces are left untouched
apart from retagging. -/
def toSrgb (c : AbsoluteColor) : AbsoluteColor :=
  { c with colorSpace := ColorSpace.Srgb }

/-- Modelled from the spec: the external CSS color grammar
(`properties::longhands::color::parse` plus the cssparser crate), restricted
to the inputs the claims exercise.  Legacy `rgb`/`rgba` components are
scaled to [0,1]; `currentColor` and `color-mix` parse to their
context-dependent forms; anything else is a grammar error carrying the
parser diagnostic. -/
def colorParseModel (s : String) : Except String SpecifiedColor :=
  if s = "rgb(255,0,0)" ∨ s = "rgb(255, 0, 0)" then
    Except.ok (SpecifiedColor.Absolute ⟨ColorSpace.Srgb, 1, 0, 0, 1⟩)
  else if s = "rgba(255,0,0,0.5)" ∨ s = "rgba(255, 0, 0, 0.5)" then
    Except.ok (SpecifiedColor.Absolute ⟨ColorSpace.Srgb, 1, 0, 0, 1/2⟩)
  else if s = "red" then
    Except.ok (SpecifiedColor.Absolute ⟨ColorSpace.Srgb, 1, 0, 0, 1⟩)
  else if s = "currentColor" then
    Except.ok SpecifiedColor.CurrentColor
  else if s = "color-mix(in srgb, red, blue)" then
    Except.ok SpecifiedColor.OtherContextDependent
  else
    Except.error "UnexpectedToken"

/-- FFI result record `ParsedColor`. -/
structure ParsedColor where
  success : Bool
  c0 : ℚ
  c1 : ℚ
  c2 : ℚ
  alpha : ℚ
  colorSpace : ColorSpace
  errorMessage : String
  deriving DecidableEq, Repr

/-- Core of `parse_color`, translated from the match on the parse outcome in
`src/style/ffi/mod.rs` lines 812-879. -/
def parseColorImpl : Except String SpecifiedColor → ParsedColor
  | Except.ok (SpecifiedColor.Absolute abs) =>
      ⟨true, abs.c0, abs.c1, abs.c2, abs.alpha, abs.colorSpace, ""⟩
  | Except.ok SpecifiedColor.CurrentColor =>
      ⟨false, 0, 0, 0, 0, ColorSpace.Srgb,
        "CurrentColor cannot be converted to absolute color"⟩
  | Except.ok SpecifiedColor.OtherContextDependent =>
      ⟨false, 0, 0, 0, 0, ColorSpace.Srgb,
        "Color cannot be resolved to absolute color at parse time"⟩
  | Except.error e =>
      ⟨false, 0, 0, 0, 0, ColorSpace.Srgb, "Failed to parse color: " ++ e⟩

/-- The FFI entry point `parse_color`: parse, then classify. -/
def parse_color (s : String) : ParsedColor := parseColorImpl (colorParseModel s)

/-- FFI result record `ParsedNsColor`. -/
structure ParsedNsColor where
  success : Bool
  nscolor : ℕ
  errorMessage : String
  deriving DecidableEq, Repr

/-- One packed channel as computed by the source:
`(c * 255.0).round() as u8` — round half away from zero, then a saturating
cast to u8. -/
def packByte (c : ℚ) : ℕ := castU8Sat (roundHalfAway (c * 255))

/-- Packing of an sRGB color as in `parse_color_to_nscolor` lines 933-942:
convert to sRGB, round each channel, assemble `[R,G,B,A]` little-endian. -/
def packNsColor (abs : AbsoluteColor) : ℕ :=
  let srgb := toSrgb abs
  fromLeBytes (packByte srgb.c0) (packByte srgb.c1) (packByte srgb.c2)
    (packByte srgb.alpha)

/-- Core of `parse_color_to_nscolor`, translated from the match on the parse
outcome in `src/style/ffi/mod.rs` lines 910-955. -/
def parseColorToNsColorImpl : Except String SpecifiedColor → ParsedNsColor
  | Except.ok (SpecifiedColor.Absolute abs) =>
      ⟨true, packNsColor abs, ""⟩
  | Except.ok SpecifiedColor.CurrentColor =>
      ⟨false, 0, "CurrentColor cannot be converted to absolute color"⟩
  | Except.ok SpecifiedColor.OtherContextDependent =>
      ⟨false, 0, "Color cannot be resolved to absolute color at parse time"⟩
  | Except.error e =>
      ⟨false, 0, "Failed to parse color: " ++ e⟩

/-- The FFI entry point `parse_color_to_nscolor`. -/
def parse_color_to_nscolor (s : String) : ParsedNsColor :=
  parseColorToNsColorImpl (colorParseModel s)

/-- The spec's packing of one channel: `round(clamp01(c) * 255)` as a
natural number.  This follows the spec's words, to be compared with
`packByte`, which follows the source. -/
def specPackByte (c : ℚ) : ℕ := (roundHalfAway (clamp01 c * 255)).toNat

/-- The spec's packed RGBA: each channel clamped, scaled, rounded, assembled
`[R,G,B,A]` in increasing byte-significance order. -/
def specPackNsColor (abs : AbsoluteColor) : ℕ :=
  let srgb := toSrgb abs
  fromLeBytes (specPackByte srgb.c0) (specPackByte srgb.c1)
    (specPackByte srgb.c2) (specPackByte srgb.alpha)

/-- FFI result record `CalcResult`. -/
structure CalcResult where
  value : ℚ
  success : Bool
  deriving DecidableEq, Repr

/-- Leaves of a parsed calc expression tree as distinguished by
`try_extract_numeric_value`: a unitless number, a percentage, or any other
(dimensioned) leaf. -/
inductive CalcLeaf
  | Number (n : ℚ)
  | Percentage (p : ℚ)
  | OtherLeaf
  deriving DecidableEq, Repr

/-- A parsed calc expression node: a leaf, or any non-leaf operator node
(sum, product, min/max/clamp, ...), whose internal structure the FFI module
never inspects. -/
inductive CalcNode
  | Leaf (l : CalcLeaf)
  | NonLeaf
  deriving DecidableEq, Repr

/-- Translation of `try_extract_numeric_value` (mod.rs lines 309-317):
literal number or percentage leaves yield their value, everything else
yields none. -/
def try_extract_numeric_value : CalcNode → Option ℚ
  | CalcNode.Leaf (CalcLeaf.Number n) => some n
  | CalcNode.Leaf (CalcLeaf.Percentage p) => some p
  | _ => none

/-- Modelled from the spec: the external `calc(...)` grammar
(`CalcNode::parse` behind `expect_function_matching "calc"`), restricted to
the inputs the claims exercise.  `calc(5)` parses to a literal number leaf;
`calc(1 + 2)` parses to a non-leaf operator node; text that is not a
`calc(...)` function fails to parse. -/
def calcParseModel (s : String) : Option CalcNode :=
  if s = "calc(5)" then some (CalcNode.Leaf (CalcLeaf.Number 5))
  else if s = "calc(1 + 2)" then some CalcNode.NonLeaf
  else none

/-- Modelled from the spec: Rust `str::trim` — remove leading and trailing
whitespace characters. -/
def trimModel (s : String) : String :=
  ⟨((s.data.dropWhile Char.isWhitespace).reverse.dropWhile
      Char.isWhitespace).reverse⟩

/-- Modelled from the spec: Rust `str::parse::<f32>` — decimal number
parsing — restricted to the inputs the claims exercise. -/
def parseF32Model (s : String) : Option ℚ :=
  if s = "42" then some 42 else none

/-- Translation of `evaluate_calc_expression` (mod.rs lines 248-305): try
the calc grammar and extract a literal leaf; on any failure fall back to
parsing the trimmed text as a plain number; otherwise fail with value 0. -/
def evaluate_calc_expression (expr : String) : CalcResult :=
  match (calcParseModel expr).bind try_extract_numeric_value with
  | some v => ⟨v, true⟩
  | none =>
      match parseF32Model (trimModel expr) with
      | some v => ⟨v, true⟩
      | none => ⟨0, false⟩

/-- FFI result record `ParseResult`. -/
structure ParseResult where
  success : Bool
  errorMessage : String
  deriving DecidableEq, Repr

/-- Modelled from the spec: the external `url` crate's `Url::parse`,
restricted to the inputs the claims and the repository tests exercise.
Absolute URLs with a scheme parse; scheme-less text is a relative-URL
error. -/
def urlParseModel (s : String) : Except String Unit :=
  if s = "https://example.com/style.css" ∨ s = "about:blank" ∨
      s = "http://example.com" then
    Except.ok ()
  else
    Except.error "RelativeUrlWithoutBase"

/-- Translation of `parse_stylesheet` (mod.rs lines 175-209): an invalid
base URL fails with a diagnostic; otherwise `Stylesheet::from_str` always
succeeds (malformed CSS is recorded internally), so the result is success
with an empty message whatever the css text. -/
def parse_stylesheet (css : String) (baseUrl : String) : ParseResult :=
  match urlParseModel baseUrl with
  | Except.error e => ⟨false, "Invalid base URL: " ++ e⟩
  | Except.ok _ =>
      let _ := css
      ⟨true, ""⟩

/-- The FFI element: an opaque handle, value 0 being the null sentinel. -/
structure FFIElement where
  ptr : ℕ
  deriving DecidableEq, Repr

/-- Translation of `FFIElementWrapper::opaque` (mod.rs lines 596-612): the
null handle maps to the sentinel address 1, every other handle passes its
numeric value through. -/
def opaqueIdentity (e : FFIElement) : ℕ := if e.ptr = 0 then 1 else e.ptr

/-- Translation of `FFIElementWrapper::is_same_type` (mod.rs lines 675-682):
raw handle-value equality. -/
def is_same_type (a b : FFIElement) : Bool := a.ptr == b.ptr

/-- Modelled from the spec: the host-side callback contract of §6 — the
navigation callbacks return a handle (0 = none), the predicate callbacks
return booleans, and the state callback returns a 64-bit flag snapshot.
The host is foreign (C++), so its behavior is an arbitrary function of the
handle. -/
structure HostTree where
  parent : ℕ → ℕ
  prevSibling : ℕ → ℕ
  nextSibling : ℕ → ℕ
  firstChild : ℕ → ℕ
  state : ℕ → ℕ
  hasLocalName : ℕ → String → Bool
  hasId : ℕ → String → Bool
  hasClass : ℕ → String → Bool
  isLink : ℕ → Bool
  isRoot : ℕ → Bool
  isEmpty : ℕ → Bool

/-- Translation of `FFIElementWrapper::parent_element`: a 0 handle from the
host maps to "no such relative". -/
def parentElement (host : HostTree) (h : ℕ) : Option ℕ :=
  let p := host.parent h
  if p = 0 then none else some p

/-- Translation of `FFIElementWrapper::prev_sibling_element`. -/
def prevSiblingElement (host : HostTree) (h : ℕ) : Option ℕ :=
  let s := host.prevSibling h
  if s = 0 then none else some s

/-- Element-state bitmasks.  Modelled from the spec: the flags of the
dynamic-state bitset are mutually independent booleans in a 64-bit
snapshot; the `dom` crate fixes the actual positions, which no claim
depends on, so positions are chosen as consecutive bits here. -/
def ACTIVE : ℕ := 1
def FOCUS : ℕ := 2
def HOVER : ℕ := 4
def ENABLED : ℕ := 8
def DISABLED : ℕ := 16
def CHECKED : ℕ := 32
def INDETERMINATE : ℕ := 64
def PLACEHOLDER_SHOWN : ℕ := 128
def URLTARGET : ℕ := 256
def VISITED : ℕ := 512
def UNVISITED : ℕ := 1024

/-- The combined `VISITED_OR_UNVISITED` mask. -/
def VISITED_OR_UNVISITED : ℕ := VISITED ||| UNVISITED

/-- Bitflag `contains`: every bit of the mask is set in the state. -/
def containsFlag (state mask : ℕ) : Bool := state &&& mask == mask

/-- Bitflag `intersects`: some bit of the mask is set in the state. -/
def intersectsFlag (state mask : ℕ) : Bool := state &&& mask != 0

/-- The non-tree-structural pseudo-classes the adapter distinguishes; every
other variant of the selector grammar's enum is collapsed into `Other`,
which the source's wildcard arm handles uniformly. -/
inductive NonTSPseudoClass
  | Active | Focus | Hover | Enabled | Disabled | Checked
  | Indeterminate | PlaceholderShown | Target | Visited | Link | AnyLink
  | Other
  deriving DecidableEq, Repr

/-- Translation of `FFIElementWrapper::match_non_ts_pseudo_class` (mod.rs
lines 694-720): one state snapshot, then a fixed match on the pseudo-class,
`contains` for the single flags, `intersects` for `:any-link`, and false
for everything else. -/
def match_non_ts_pseudo_class (state : ℕ) : NonTSPseudoClass → Bool
  | NonTSPseudoClass.Active => containsFlag state ACTIVE
  | NonTSPseudoClass.Focus => containsFlag state FOCUS
  | NonTSPseudoClass.Hover => containsFlag state HOVER
  | NonTSPseudoClass.Enabled => containsFlag state ENABLED
  | NonTSPseudoClass.Disabled => containsFlag state DISABLED
  | NonTSPseudoClass.Checked => containsFlag state CHECKED
  | NonTSPseudoClass.Indeterminate => containsFlag state INDETERMINATE
  | NonTSPseudoClass.PlaceholderShown => containsFlag state PLACEHOLDER_SHOWN
  | NonTSPseudoClass.Target => containsFlag state URLTARGET
  | NonTSPseudoClass.Visited => containsFlag state VISITED
  | NonTSPseudoClass.Link => containsFlag state UNVISITED
  | NonTSPseudoClass.AnyLink => intersectsFlag state VISITED_OR_UNVISITED
  | NonTSPseudoClass.Other => false

/-- Table 1 of the spec: pseudo-class to state-flag mask; pseudo-classes
outside the table have no entry.  This follows the spec's words, to be
compared with `match_non_ts_pseudo_class`, which follows the source. -/
def pseudoClassTable : NonTSPseudoClass → Option ℕ
  | NonTSPseudoClass.Active => some ACTIVE
  | NonTSPseudoClass.Focus => some FOCUS
  | NonTSPseudoClass.Hover => some HOVER
  | NonTSPseudoClass.Enabled => some ENABLED
  | NonTSPseudoClass.Disabled => some DISABLED
  | NonTSPseudoClass.Checked => some CHECKED
  | NonTSPseudoClass.Indeterminate => some INDETERMINATE
  | NonTSPseudoClass.PlaceholderShown => some PLACEHOLDER_SHOWN
  | NonTSPseudoClass.Target => some URLTARGET
  | NonTSPseudoClass.Visited => some VISITED
  | NonTSPseudoClass.Link => some UNVISITED
  | NonTSPseudoClass.AnyLink => some VISITED_OR_UNVISITED
  | NonTSPseudoClass.Other => none

/-- The spec's evaluation of a pseudo-class against a state snapshot: look
the pseudo-class up in Table 1 and test the flag; no table entry means
"does not match". -/
def specMatchPseudoClass (state : ℕ) (pc : NonTSPseudoClass) : Bool :=
  match pseudoClassTable pc with
  | some mask => intersectsFlag state mask
  | none => false

/-- Simple selectors as the adapter's capability set observes them: the
name/id/class predicates, the dynamic-state pseudo-classes, the boolean
element predicates, attribute selectors (unsupported, always false), and
negation. -/
inductive SimpleSelector
  | LocalName (name : String)
  | Id (id : String)
  | Class (c : String)
  | PseudoClass (pc : NonTSPseudoClass)
  | IsLink
  | IsRoot
  | IsEmpty
  | Attr
  | Negation (inner : SimpleSelector)
  deriving DecidableEq, Repr

/-- Evaluation of one simple selector on a handle: each case delegates to
the corresponding `FFIElementWrapper` method — host callbacks for the
predicates (mod.rs lines 667-779), the state table for pseudo-classes, and
the constant false of `attr_matches` (lines 684-692). -/
def matchSimple (host : HostTree) (h : ℕ) : SimpleSelector → Bool
  | SimpleSelector.LocalName name => host.hasLocalName h name
  | SimpleSelector.Id i => host.hasId h i
  | SimpleSelector.Class c => host.hasClass h c
  | SimpleSelector.PseudoClass pc => match_non_ts_pseudo_class (host.state h) pc
  | SimpleSelector.IsLink => host.isLink h
  | SimpleSelector.IsRoot => host.isRoot h
  | SimpleSelector.IsEmpty => host.isEmpty h
  | SimpleSelector.Attr => false
  | SimpleSelector.Negation inner => ! matchSimple host h inner

/-- A compound selector matches when all its simple selectors do. -/
def matchCompound (host : HostTree) (h : ℕ) (cp : List SimpleSelector) : Bool :=
  cp.all (matchSimple host h)

/-- Selector combinators. -/
inductive Combinator
  | Child
  | Descendant
  | NextSibling
  | LaterSibling
  deriving DecidableEq, Repr

/-- Modelled from the spec: the generic right-to-left matching walk of the
external selectors library — from the current element, each combinator
steps to the parent (child), some ancestor (descendant), the previous
sibling (next-sibling) or some earlier sibling (later-sibling), through the
adapter's navigation methods.  `fuel` bounds the tree walk; the host
guarantees a finite tree, so some fuel suffices. -/
def matchRest (host : HostTree) :
    ℕ → ℕ → List (Combinator × List SimpleSelector) → Bool
  | _, _, [] => true
  | 0, _, _ :: _ => false
  | fuel + 1, h, (comb, cp) :: rest =>
    match comb with
    | Combinator.Child =>
        (parentElement host h).elim false fun p =>
          matchCompound host p cp && matchRest host fuel p rest
    | Combinator.Descendant =>
        (parentElement host h).elim false fun p =>
          (matchCompound host p cp && matchRest host fuel p rest) ||
            matchRest host fuel p ((Combinator.Descendant, cp) :: rest)
    | Combinator.NextSibling =>
        (prevSiblingElement host h).elim false fun s =>
          matchCompound host s cp && matchRest host fuel s rest
    | Combinator.LaterSibling =>
        (prevSiblingElement host h).elim false fun s =>
          (matchCompound host s cp && matchRest host fuel s rest) ||
            matchRest host fuel s ((Combinator.LaterSibling, cp) :: rest)

/-- A complex selector: the subject (rightmost) compound plus the chain of
(combinator, compound) pairs extending leftward. -/
structure ComplexSelector where
  subject : List SimpleSelector
  rest : List (Combinator × List SimpleSelector)
  deriving DecidableEq, Repr

/-- A complex selector matches a handle when its subject compound matches
and the leftward chain is satisfied. -/
def matchComplex (host : HostTree) (fuel : ℕ) (h : ℕ)
    (sel : ComplexSelector) : Bool :=
  matchCompound host h sel.subject && matchRest host fuel h sel.rest

/-- FFI result record `SelectorMatchResult`. -/
structure SelectorMatchResult where
  matched : Bool
  errorMessage : String
  deriving DecidableEq, Repr

/-- Translation of the matching loop of `match_selector` (mod.rs lines
570-586): evaluate the parsed selectors in list order, return true with an
empty message on the first match, false with an empty message when the list
is exhausted. -/
def matchSelectorLoop (host : HostTree) (fuel : ℕ) (h : ℕ) :
    List ComplexSelector → SelectorMatchResult
  | [] => ⟨false, ""⟩
  | sel :: restSels =>
      if matchComplex host fuel h sel then ⟨true, ""⟩
      else matchSelectorLoop host fuel h restSels

/-- Translation of `match_selector` (mod.rs lines 537-587) over the outcome
of the external selector grammar: a grammar error yields a failure message,
a parsed list goes through the matching loop. -/
def match_selector (host : HostTree) (fuel : ℕ) (h : ℕ) :
    Except String (List ComplexSelector) → SelectorMatchResult
  | Except.error e => ⟨false, "Failed to parse selector: " ++ e⟩
  | Except.ok sels => matchSelectorLoop host fuel h sels

/-- Modelled from the spec: the host contract on the null handle — a null
element reports "null"/absent on every navigation and predicate query and
an all-clear state snapshot. -/
def NullHostContract (host : HostTree) : Prop :=
  host.parent 0 = 0 ∧ host.prevSibling 0 = 0 ∧ host.nextSibling 0 = 0 ∧
  host.firstChild 0 = 0 ∧ host.state 0 = 0 ∧
  (∀ s, host.hasLocalName 0 s = false) ∧
  (∀ s, host.hasId 0 s = false) ∧
  (∀ s, host.hasClass 0 s = false) ∧
  host.isLink 0 = false ∧ host.isRoot 0 = false ∧ host.isEmpty 0 = false

/-- A simple selector is a positive requirement unless it is a negation. -/
def positiveSimple : SimpleSelector → Bool
  | SimpleSelector.Negation _ => false
  | _ => true

/-- A compound has a positive requirement when one of its simple selectors
does. -/
def hasPositive (cp : List SimpleSelector) : Bool := cp.any positiveSimple

/-- A complex selector has a positive requirement when its subject or some
compound in its combinator chain does. -/
def selHasPositive (sel : ComplexSelector) : Bool :=
  hasPositive sel.subject || sel.rest.any fun p => hasPositive p.2

/-- The host whose every callback reports absent/false/zero: the least
tree, used as a concrete witness instance. -/
def trivialHost : HostTree :=
  ⟨fun _ => 0, fun _ => 0, fun _ => 0, fun _ => 0, fun _ => 0,
   fun _ _ => false, fun _ _ => false, fun _ _ => false,
   fun _ => false, fun _ => false, fun _ => false⟩

/-! Helper lemmas about the packing arithmetic. -/

theorem castU8Sat_of_nonpos {z : ℤ} (h : z ≤ 0) : castU8Sat z = 0 := by
  unfold castU8Sat; split
  · rfl
  · split <;> omega

theorem castU8Sat_of_ge255 {z : ℤ} (h : 255 ≤ z) : castU8Sat z = 255 := by
  unfold castU8Sat; split
  · omega
  · split <;> omega

theorem castU8Sat_of_range {z : ℤ} (h0 : 0 ≤ z) (h255 : z ≤ 255) :
    castU8Sat z = z.toNat := by
  unfold castU8Sat; split
  · omega
  · split <;> omega

/-- The saturating round of the source agrees channel-wise with the spec's
clamp-then-round: rounding is monotone, so saturation at the cast and
clamping before the scale land on the same byte. -/
theorem packByte_eq_specPackByte (c : ℚ) : packByte c = specPackByte c := by
  rcases lt_or_le c 0 with hneg | h0
  · have hx : ¬ (0:ℚ) ≤ c * 255 := by nlinarith
    have h1 : roundHalfAway (c * 255) ≤ 0 := by
      rw [roundHalfAway, if_neg hx]
      exact Int.ceil_le.mpr (by push_cast; nlinarith)
    have h2 : clamp01 c = 0 := by
      rw [clamp01, min_eq_right (by linarith : c ≤ 1), max_eq_left hneg.le]
    rw [packByte, specPackByte, h2, castU8Sat_of_nonpos h1]
    rw [roundHalfAway, if_pos (by norm_num)]
    norm_num
  · rcases le_or_lt c 1 with h1 | h1
    · have hc : clamp01 c = c := by
        rw [clamp01, min_eq_right h1, max_eq_right h0]
      have hx : (0:ℚ) ≤ c * 255 := by nlinarith
      have hlo : 0 ≤ roundHalfAway (c * 255) := by
        rw [roundHalfAway, if_pos hx]
        exact Int.le_floor.mpr (by push_cast; linarith)
      have hhi : roundHalfAway (c * 255) ≤ 255 := by
        rw [roundHalfAway, if_pos hx]
        have := Int.floor_lt.mpr
          (show c * 255 + 1/2 < ((256:ℤ):ℚ) by push_cast; nlinarith)
        omega
      rw [packByte, specPackByte, hc, castU8Sat_of_range hlo hhi]
    · have hx : (0:ℚ) ≤ c * 255 := by nlinarith
      have h255 : (255:ℤ) ≤ roundHalfAway (c * 255) := by
        rw [roundHalfAway, if_pos hx]
        exact Int.le_floor.mpr (by push_cast; nlinarith)
      have hclamp : clamp01 c = 1 := by
        rw [clamp01, min_eq_left h1.le, max_eq_right (by norm_num)]
      rw [packByte, specPackByte, hclamp, castU8Sat_of_ge255 h255]
      rw [roundHalfAway, if_pos (by norm_num)]
      norm_num
      rfl

/-- The packed color of the source agrees with the spec's packed color. -/
theorem packNsColor_eq_specPackNsColor (abs : AbsoluteColor) :
    packNsColor abs = specPackNsColor abs := by
  simp only [packNsColor, specPackNsColor, packByte_eq_specPackByte]

theorem nscolor_rgba_concrete :
    parse_color_to_nscolor "rgba(255,0,0,0.5)" = ⟨true, 0x800000FF, ""⟩ := by
  have hparse : colorParseModel "rgba(255,0,0,0.5)" =
      Except.ok (SpecifiedColor.Absolute ⟨ColorSpace.Srgb, 1, 0, 0, 1/2⟩) := by
    simp [colorParseModel]
  rw [parse_color_to_nscolor, hparse, parseColorToNsColorImpl]
  norm_num [packNsColor, toSrgb, fromLeBytes, packByte, castU8Sat,
    roundHalfAway]
  rfl

theorem nscolor_rgb_concrete :
    parse_color_to_nscolor "rgb(255,0,0)" = ⟨true, 0xFF0000FF, ""⟩ := by
  have hparse : colorParseModel "rgb(255,0,0)" =
      Except.ok (SpecifiedColor.Absolute ⟨ColorSpace.Srgb, 1, 0, 0, 1⟩) := by
    simp [colorParseModel]
  rw [parse_color_to_nscolor, hparse, parseColorToNsColorImpl]
  norm_num [packNsColor, toSrgb, fromLeBytes, packByte, castU8Sat,
    roundHalfAway]
  rfl

/-- Claim C1, counterexample: the claim's concrete value is wrong — the
source packs `[R,G,B,A]` with R least significant, so
`rgba(255,0,0,0.5)` packs to `0x800000FF`, not the claimed `0xFF000080`
(which the claim's own byte-order rule also forbids). -/
theorem nscolor_rgba_claimed_value_false :
    (parse_color_to_nscolor "rgba(255,0,0,0.5)").nscolor = 0x800000FF ∧
    (0x800000FF : ℕ) ≠ 0xFF000080 := by
  refine ⟨by simp [nscolor_rgba_concrete], by decide⟩

/-- Claim C1 (amended): for every color text that resolves to an absolute
color, the returned packed value converts the color to sRGB and packs each
channel as `round(clamp01(c) * 255)` (round half away from zero), assembled
`[R,G,B,A]` in increasing byte-significance order; in particular
`rgba(255,0,0,0.5)` packs to `0x800000FF` and `rgb(255,0,0)` to
`0xFF0000FF`. -/
theorem parse_color_to_nscolor_packing (s : String) (abs : AbsoluteColor)
    (h : colorParseModel s = Except.ok (SpecifiedColor.Absolute abs)) :
    parse_color_to_nscolor s = ⟨true, specPackNsColor abs, ""⟩ ∧
    (parse_color_to_nscolor "rgba(255,0,0,0.5)").nscolor = 0x800000FF ∧
    (parse_color_to_nscolor "rgb(255,0,0)").nscolor = 0xFF0000FF := by
  refine ⟨?_, by simp [nscolor_rgba_concrete], by simp [nscolor_rgb_concrete]⟩
  rw [parse_color_to_nscolor, h]
  simp [parseColorToNsColorImpl, packNsColor_eq_specPackNsColor]

/-- Witness for the amended C1 theorem at `rgb(255,0,0)`. -/
theorem parse_color_to_nscolor_packing_witness :
    parse_color_to_nscolor "rgb(255,0,0)" =
      ⟨true, specPackNsColor ⟨ColorSpace.Srgb, 1, 0, 0, 1⟩, ""⟩ :=
  (parse_color_to_nscolor_packing "rgb(255,0,0)" ⟨ColorSpace.Srgb, 1, 0, 0, 1⟩
    (by simp [colorParseModel])).1

/-- Claim C2, counterexample: the null handle maps to the sentinel 1, but
the real (non-zero) handle 1 also encodes to 1, so the sentinel is not
distinct from the encoding of every real handle value. -/
theorem opaque_null_collision :
    opaqueIdentity ⟨0⟩ = opaqueIdentity ⟨1⟩ ∧ (1 : ℕ) ≠ 0 := by
  exact ⟨rfl, by decide⟩

/-- Claim C2 (amended): the opaque-identity operation maps the null handle
to the non-null sentinel 1 and every non-zero handle to its numeric value;
the sentinel is distinct from the encoding of every real handle except the
handle of value 1, with which it collides. -/
theorem opaque_identity_amended :
    opaqueIdentity ⟨0⟩ = 1 ∧
    (∀ h : ℕ, h ≠ 0 → opaqueIdentity ⟨h⟩ = h) ∧
    (∀ h : ℕ, h ≠ 0 → h ≠ 1 → opaqueIdentity ⟨0⟩ ≠ opaqueIdentity ⟨h⟩) := by
  refine ⟨rfl, ?_, ?_⟩
  · intro h hh
    simp [opaqueIdentity, hh]
  · intro h hh h1
    simp only [opaqueIdentity]
    simp [hh]
    omega

/-- Witness for the amended C2 theorem at handle 2. -/
theorem opaque_identity_amended_witness :
    opaqueIdentity ⟨2⟩ = 2 ∧ opaqueIdentity ⟨0⟩ ≠ opaqueIdentity ⟨2⟩ :=
  ⟨opaque_identity_amended.2.1 2 (by decide),
   opaque_identity_amended.2.2 2 (by decide) (by decide)⟩

/-- Claim C3: inputs resolving to `currentColor` and inputs resolving to
any other context-dependent color form both fail `parse_color`, with
success false and two distinct, non-empty error messages. -/
theorem parse_color_context_dependent (s t : String)
    (hs : colorParseModel s = Except.ok SpecifiedColor.CurrentColor)
    (ht : colorParseModel t = Except.ok SpecifiedColor.OtherContextDependent) :
    (parse_color s).success = false ∧
    (parse_color t).success = false ∧
    (parse_color s).errorMessage =
      "CurrentColor cannot be converted to absolute color" ∧
    (parse_color t).errorMessage =
      "Color cannot be resolved to absolute color at parse time" ∧
    (parse_color s).errorMessage ≠ "" ∧
    (parse_color t).errorMessage ≠ "" ∧
    (parse_color s).errorMessage ≠ (parse_color t).errorMessage := by
  simp only [parse_color, hs, ht, parseColorImpl]
  refine ⟨trivial, trivial, trivial, trivial, by decide, by decide, by decide⟩

/-- Witness for C3 at `currentColor` and `color-mix(in srgb, red, blue)`. -/
theorem parse_color_context_dependent_witness :
    (parse_color "currentColor").errorMessage ≠
      (parse_color "color-mix(in srgb, red, blue)").errorMessage :=
  (parse_color_context_dependent "currentColor"
    "color-mix(in srgb, red, blue)"
    (by simp [colorParseModel]) (by simp [colorParseModel])).2.2.2.2.2.2

/-- Claim C4: `evaluate_calc_expression` first extracts a literal leaf from
a parsed `calc(...)` expression, then falls back to parsing the trimmed raw
text as a decimal number, then fails; concretely `"42"` gives 42,
`"calc(5)"` gives 5, and `"calc(1 + 2)"` fails. -/
theorem evaluate_calc_staged (expr : String) :
    (∀ v, (calcParseModel expr).bind try_extract_numeric_value = some v →
        evaluate_calc_expression expr = ⟨v, true⟩) ∧
    ((calcParseModel expr).bind try_extract_numeric_value = none →
      (∀ v, parseF32Model (trimModel expr) = some v →
          evaluate_calc_expression expr = ⟨v, true⟩) ∧
      (parseF32Model (trimModel expr) = none →
          evaluate_calc_expression expr = ⟨0, false⟩)) ∧
    evaluate_calc_expression "42" = ⟨42, true⟩ ∧
    evaluate_calc_expression "calc(5)" = ⟨5, true⟩ ∧
    evaluate_calc_expression "calc(1 + 2)" = ⟨0, false⟩ := by
  have h42 : trimModel "42" = "42" := by decide
  have h12 : trimModel "calc(1 + 2)" = "calc(1 + 2)" := by decide
  refine ⟨?_, ?_, ?_, ?_, ?_⟩
  · intro v hv
    simp only [evaluate_calc_expression, hv]
  · intro hn
    refine ⟨?_, ?_⟩
    · intro v hv
      simp only [evaluate_calc_expression, hn, hv]
    · intro hv
      simp only [evaluate_calc_expression, hn, hv]
  · simp [evaluate_calc_expression, calcParseModel, h42, parseF32Model]
  · simp [evaluate_calc_expression, calcParseModel, try_extract_numeric_value]
  · simp [evaluate_calc_expression, calcParseModel, try_extract_numeric_value,
      h12, parseF32Model]

/-- Witness for C4 at `calc(5)`. -/
theorem evaluate_calc_staged_witness :
    evaluate_calc_expression "calc(5)" = ⟨5, true⟩ :=
  (evaluate_calc_staged "calc(5)").1 5
    (by simp [calcParseModel, try_extract_numeric_value])

/-- Claim C8: `is_same_type` on the same handle on both sides is true,
including for the null handle. -/
theorem is_same_type_refl (h : FFIElement) : is_same_type h h = true := by
  simp [is_same_type]

/-- Claim C9: `parse_stylesheet` succeeds with an empty message whenever
the base URL parses, regardless of the css text, and fails with a
non-empty message exactly when the base URL does not parse. -/
theorem parse_stylesheet_url_gate (css url : String) :
    (urlParseModel url = Except.ok () → parse_stylesheet css url = ⟨true, ""⟩) ∧
    (∀ e, urlParseModel url = Except.error e →
      (parse_stylesheet css url).success = false ∧
      (parse_stylesheet css url).errorMessage ≠ "") := by
  constructor
  · intro h
    simp only [parse_stylesheet, h]
  · intro e h
    simp only [parse_stylesheet, h]
    refine ⟨trivial, ?_⟩
    intro heq
    have hlen := congrArg String.length heq
    rw [String.length_append] at hlen
    have h18 : ("Invalid base URL: ").length = 18 := by decide
    rw [h18] at hlen
    simp at hlen

/-- Witness for C9: a well-formed base URL with arbitrary css succeeds. -/
theorem parse_stylesheet_url_gate_witness :
    parse_stylesheet "body { color: red; }" "https://example.com/style.css" =
      ⟨true, ""⟩ :=
  (parse_stylesheet_url_gate "body { color: red; }"
    "https://example.com/style.css").1 (by simp [urlParseModel])

/-- Claim C10: whenever `parse_color` fails, the payload is the fixed
default — components (0,0,0), alpha 0 and color space sRGB. -/
theorem parse_color_failure_defaults (r : Except String SpecifiedColor)
    (h : (parseColorImpl r).success = false) :
    (parseColorImpl r).c0 = 0 ∧ (parseColorImpl r).c1 = 0 ∧
    (parseColorImpl r).c2 = 0 ∧ (parseColorImpl r).alpha = 0 ∧
    (parseColorImpl r).colorSpace = ColorSpace.Srgb := by
  match r with
  | Except.ok (SpecifiedColor.Absolute abs) => simp [parseColorImpl] at h
  | Except.ok SpecifiedColor.CurrentColor => exact ⟨rfl, rfl, rfl, rfl, rfl⟩
  | Except.ok SpecifiedColor.OtherContextDependent =>
      exact ⟨rfl, rfl, rfl, rfl, rfl⟩
  | Except.error e => exact ⟨rfl, rfl, rfl, rfl, rfl⟩

/-- Witness for C10 at the `currentColor` outcome. -/
theorem parse_color_failure_defaults_witness :
    (parseColorImpl (Except.ok SpecifiedColor.CurrentColor)).c0 = 0 ∧
    (parseColorImpl (Except.ok SpecifiedColor.CurrentColor)).c1 = 0 ∧
    (parseColorImpl (Except.ok SpecifiedColor.CurrentColor)).c2 = 0 ∧
    (parseColorImpl (Except.ok SpecifiedColor.CurrentColor)).alpha = 0 ∧
    (parseColorImpl (Except.ok SpecifiedColor.CurrentColor)).colorSpace =
      ColorSpace.Srgb :=
  parse_color_failure_defaults (Except.ok SpecifiedColor.CurrentColor) rfl

/-! Helper lemmas about selector matching on the null element. -/

theorem containsFlag_two_pow (s k : ℕ) :
    containsFlag s (2^k) = intersectsFlag s (2^k) := by
  unfold containsFlag intersectsFlag
  rw [Nat.and_two_pow]
  cases h : s.testBit k <;>
    simp [(pow_pos (by norm_num : (0:ℕ) < 2) k).ne,
      (pow_pos (by norm_num : (0:ℕ) < 2) k).ne']

theorem match_pseudo_zero (pc : NonTSPseudoClass) :
    match_non_ts_pseudo_class 0 pc = false := by
  cases pc <;>
    simp [match_non_ts_pseudo_class, containsFlag, intersectsFlag,
      ACTIVE, FOCUS, HOVER, ENABLED, DISABLED, CHECKED, INDETERMINATE,
      PLACEHOLDER_SHOWN, URLTARGET, VISITED, UNVISITED, VISITED_OR_UNVISITED,
      Nat.zero_and]

theorem matchSimple_null (host : HostTree) (hc : NullHostContract host)
    (s : SimpleSelector) (hp : positiveSimple s = true) :
    matchSimple host 0 s = false := by
  obtain ⟨hpar, hprev, hnext, hchild, hstate, hname, hid, hclass, hlink,
    hroot, hempty⟩ := hc
  cases s with
  | LocalName name => exact hname name
  | Id i => exact hid i
  | Class c => exact hclass c
  | PseudoClass pc =>
      show match_non_ts_pseudo_class (host.state 0) pc = false
      rw [hstate]
      exact match_pseudo_zero pc
  | IsLink => exact hlink
  | IsRoot => exact hroot
  | IsEmpty => exact hempty
  | Attr => rfl
  | Negation inner => simp [positiveSimple] at hp

theorem matchCompound_null (host : HostTree) (hc : NullHostContract host)
    (cp : List SimpleSelector) (hp : hasPositive cp = true) :
    matchCompound host 0 cp = false := by
  rw [hasPositive, List.any_eq_true] at hp
  obtain ⟨s, hs, hps⟩ := hp
  cases hall : matchCompound host 0 cp
  · rfl
  · exfalso
    rw [matchCompound, List.all_eq_true] at hall
    have := hall s hs
    rw [matchSimple_null host ⟨hc.1, hc.2.1, hc.2.2.1, hc.2.2.2.1,
      hc.2.2.2.2.1, hc.2.2.2.2.2.1, hc.2.2.2.2.2.2.1, hc.2.2.2.2.2.2.2.1,
      hc.2.2.2.2.2.2.2.2.1, hc.2.2.2.2.2.2.2.2.2.1,
      hc.2.2.2.2.2.2.2.2.2.2⟩ s hps] at this
    exact Bool.false_ne_true this

theorem matchRest_null (host : HostTree) (hc : NullHostContract host)
    (fuel : ℕ) (p : Combinator × List SimpleSelector)
    (rest : List (Combinator × List SimpleSelector)) :
    matchRest host fuel 0 (p :: rest) = false := by
  have hpar : parentElement host 0 = none := by
    simp [parentElement, hc.1]
  have hprev : prevSiblingElement host 0 = none := by
    simp [prevSiblingElement, hc.2.1]
  cases fuel with
  | zero => rfl
  | succ n =>
      obtain ⟨comb, cp⟩ := p
      cases comb <;> simp [matchRest, hpar, hprev]

theorem matchComplex_null (host : HostTree) (hc : NullHostContract host)
    (fuel : ℕ) (sel : ComplexSelector) (hp : selHasPositive sel = true) :
    matchComplex host fuel 0 sel = false := by
  rw [matchComplex]
  cases hr : sel.rest with
  | nil =>
      have hsub : hasPositive sel.subject = true := by
        rw [selHasPositive, hr] at hp
        simpa using hp
      rw [matchCompound_null host hc sel.subject hsub]
      rfl
  | cons p rest =>
      rw [matchRest_null host hc fuel p rest]
      simp

/-- Claim C5: matching any parsed selector list whose selectors each carry
at least one positive structural or predicate requirement against the null
handle yields no match — the null element reports absent on every
navigation and false on every predicate. -/
theorem match_selector_null_no_positive_match (host : HostTree)
    (hc : NullHostContract host) (fuel : ℕ) (sels : List ComplexSelector)
    (hp : ∀ sel ∈ sels, selHasPositive sel = true) :
    (match_selector host fuel 0 (Except.ok sels)).matched = false := by
  rw [match_selector]
  induction sels with
  | nil => rfl
  | cons s rest ih =>
      simp only [matchSelectorLoop]
      rw [matchComplex_null host hc fuel s (hp s (by simp))]
      simp only [Bool.false_eq_true, if_false]
      exact ih fun sel hs => hp sel (List.mem_cons_of_mem s hs)

/-- Witness for C5: the selector `div` against the null handle of the
all-absent host. -/
theorem match_selector_null_no_positive_match_witness :
    (match_selector trivialHost 1 0
      (Except.ok [⟨[SimpleSelector.LocalName "div"], []⟩])).matched = false :=
  match_selector_null_no_positive_match trivialHost
    ⟨rfl, rfl, rfl, rfl, rfl, fun _ => rfl, fun _ => rfl, fun _ => rfl,
      rfl, rfl, rfl⟩
    1 [⟨[SimpleSelector.LocalName "div"], []⟩] (by decide)

/-- Claim C6: on a parsed selector list, `match_selector` is the list-order
logical OR of the individual selector matches, short-circuiting at the
first match, and both the matched and the exhausted outcome carry an empty
error message. -/
theorem match_selector_list_or (host : HostTree) (fuel h : ℕ)
    (sels : List ComplexSelector) :
    match_selector host fuel h (Except.ok sels) =
      ⟨sels.any (matchComplex host fuel h), ""⟩ := by
  rw [match_selector]
  induction sels with
  | nil => rfl
  | cons s rest ih =>
      simp only [matchSelectorLoop, List.any_cons]
      cases hm : matchComplex host fuel h s
      · simpa [hm] using ih
      · simp [hm]

/-- Claim C7: the pseudo-class matcher reads one state snapshot and agrees
with the fixed Table 1 mapping everywhere; pseudo-classes outside the
table never match and never error. -/
theorem match_pseudo_class_table (state : ℕ) (pc : NonTSPseudoClass) :
    match_non_ts_pseudo_class state pc = specMatchPseudoClass state pc := by
  cases pc <;>
    simp only [match_non_ts_pseudo_class, specMatchPseudoClass,
      pseudoClassTable] <;>
    first
      | rfl
      | exact containsFlag_two_pow state 0
      | exact containsFlag_two_pow state 1
      | exact containsFlag_two_pow state 2
      | exact containsFlag_two_pow state 3
      | exact containsFlag_two_pow state 4
      | exact containsFlag_two_pow state 5
      | exact containsFlag_two_pow state 6
      | exact containsFlag_two_pow state 7
      | exact containsFlag_two_pow state 8
      | exact containsFlag_two_pow state 9
      | exact containsFlag_two_pow state 10

end StyloFFI
